import Mathlib

/-!
Shallow embedding of the streaming speech-segmentation engine in
`src/src/deepspeech_wrapper.cpp` (class `deepspeech_wrapper`).

The engine state is the subset of the object's fields that the processing
step reads or writes.  The opaque recognition backend is modelled through
per-step oracle inputs (`StepInput.create_ok`, `StepInput.decode_result`)
and every observable action — backend calls and host callbacks — is
recorded as an `Event` in a trace.  Functions that can throw
(`create_ds_stream`, `decode_speech`, `process_buff`) return `Except`.
-/

/-- Speech segmentation mode (`speech_mode_t`), fixed per engine instance. -/
inductive speech_mode_t
  | manual
  | single_sentence
  | automatic
  deriving DecidableEq, Repr

/-- Speech detection status (`speech_detection_status_t`). -/
inductive speech_detection_status_t
  | no_speech
  | speech_detected
  | decoding
  deriving DecidableEq, Repr

/-- Flush kind (`flush_t`). -/
inductive flush_t
  | regular
  | eof
  deriving DecidableEq, Repr

/-- Return value of `process_buff` (`samples_process_result_t`). -/
inductive samples_process_result_t
  | wait_for_samples
  | no_samples_needed
  deriving DecidableEq, Repr

/-- Observable actions of one processing step: backend calls and host
callbacks, in program order.  `backend_feed` records whether the stream
handle was live (non-null) at the moment `STT_FeedAudioContent` was called. -/
inductive Event
  | backend_create_stream
  | backend_free_stream
  | backend_feed (stream_live : Bool) (buf : List Int)
  | backend_intermediate_decode
  | backend_finish_stream
  | set_stream_null
  | copy_result (s : String)
  | backend_free_string
  | cb_status (st : speech_detection_status_t)
  | cb_intermediate_text (s : String)
  | cb_sentence_timeout
  | cb_flush (k : flush_t)
  deriving DecidableEq, Repr

/-- The engine fields read or written by the processing step.
`ds_model` / `ds_stream` record whether `m_ds_model` / `m_ds_stream` are
non-null; `sentence_timer` is the base-class sentence timer, holding the
tick at which it was last restarted (armed) or `none` (disarmed). -/
structure DsState where
  speech_mode : speech_mode_t
  speech_buf : List Int
  ds_model : Bool
  ds_stream : Bool
  intermediate_text : Option String
  speech_detection_status : speech_detection_status_t
  speech_started : Bool
  sentence_timer : Option Nat
  deriving DecidableEq, Repr

/-- Oracle inputs of one processing step: the claimed frame's flags, the
VAD output for the frame (`m_vad.remove_silence` result), the concurrent
exit flag, the current monotonic tick, and the backend's behaviour for this
step (whether `STT_CreateStream` succeeds, and the text the decode returns). -/
structure StepInput where
  sof : Bool
  eof : Bool
  vad_buf : List Int
  thread_exit_requested : Bool
  now : Nat
  create_ok : Bool
  decode_result : String
  deriving DecidableEq, Repr

/-- True when an optional string is present and non-empty: the C++ test
`m_intermediate_text && !m_intermediate_text->empty()`. -/
def has_nonempty_text : Option String → Bool
  | some t => !t.isEmpty
  | none => false

/-- Modelled from the spec: `set_speech_detection_status` lives in the base
class `engine_wrapper`, absent from src/.  Per §3 the status is a single
current value "observable via callback on every transition": the setter
stores the new value and emits the status callback when it changed. -/
def set_speech_detection_status (st : speech_detection_status_t) (s : DsState) :
    DsState × List Event :=
  if s.speech_detection_status = st then (s, [])
  else ({ s with speech_detection_status := st }, [Event.cb_status st])

/-- Modelled from the spec: `set_intermediate_text` lives in the base class
`engine_wrapper`, absent from src/.  It stores the text and emits the
`on_intermediate_text` callback; the change check guarding duplicate
emissions is at the call site in `decode_speech` (src line 253). -/
def set_intermediate_text (text : String) (s : DsState) : DsState × List Event :=
  ({ s with intermediate_text := some text }, [Event.cb_intermediate_text text])

/-- Modelled from the spec: `restart_sentence_timer` lives in the base class
`engine_wrapper`, absent from src/.  Per §3 the timer tracks silence since
the last speech activity and is reset (re-armed) on any detected speech. -/
def restart_sentence_timer (now : Nat) (s : DsState) : DsState :=
  { s with sentence_timer := some now }

/-- Modelled from the spec: `sentence_timer_timed_out` lives in the base
class `engine_wrapper`, absent from src/.  Per §3 the timer is a "monotonic
deadline tracking silence duration since last speech activity; reset on any
detected speech; read-only query for 'timed out'": the query reports
whether silence has lasted longer than the configured timeout since the
timer was armed and mutates nothing. -/
def sentence_timer_timed_out (timeout now : Nat) (s : DsState) : Bool :=
  match s.sentence_timer with
  | none => false
  | some t => decide (timeout < now - t)

/-- `deepspeech_wrapper::free_ds_stream` (src lines 109-114): frees the
backend stream if present and nulls the handle. -/
def free_ds_stream (s : DsState) : DsState × List Event :=
  if s.ds_stream then ({ s with ds_stream := false }, [Event.backend_free_stream])
  else (s, [])

/-- `deepspeech_wrapper::create_ds_stream` (src lines 116-125): returns
silently when a stream already exists or the model is not initialized;
otherwise calls `STT_CreateStream` and throws when it returns a non-zero
status or a null stream. -/
def create_ds_stream (create_ok : Bool) (s : DsState) :
    Except String (DsState × List Event) :=
  if s.ds_stream || !s.ds_model then Except.ok (s, [])
  else if create_ok then
    Except.ok ({ s with ds_stream := true }, [Event.backend_create_stream])
  else Except.error "failed to create ds stream"

/-- `deepspeech_wrapper::reset_impl` (src lines 127-130): clears the speech
buffer and frees the stream. -/
def reset_impl (s : DsState) : DsState × List Event :=
  free_ds_stream { s with speech_buf := [] }

/-- Modelled from the spec: the base-class `reset` entry point (absent from
src/) that §7 describes as "clear buffer + destroy session + reset
VAD/timer" with, per §8, cleared intermediate text; it then runs this
class's `reset_impl`. -/
def reset (s : DsState) : DsState × List Event :=
  reset_impl { s with intermediate_text := none, sentence_timer := none }

/-- `deepspeech_wrapper::decode_speech` (src lines 228-255).  A final
request with no open stream is a no-op; otherwise the stream is lazily
created, the buffer fed, an intermediate or finishing decode performed (a
finishing decode nulls the handle before the result is copied), and the
intermediate text updated and emitted only when it changed. -/
def decode_speech (create_ok : Bool) (decode_result : String)
    (buf : List Int) (eof : Bool) (s : DsState) :
    Except String (DsState × List Event) :=
  if !s.ds_stream && eof then Except.ok (s, [])
  else
    match create_ds_stream create_ok s with
    | Except.error e => Except.error e
    | Except.ok (s1, ev1) =>
      let evFeed := [Event.backend_feed s1.ds_stream buf]
      let (s2, evDec) :=
        if !eof then (s1, [Event.backend_intermediate_decode])
        else ({ s1 with ds_stream := false },
              [Event.backend_finish_stream, Event.set_stream_null])
      let evCopy := [Event.copy_result decode_result, Event.backend_free_string]
      if s2.intermediate_text = none ∨ s2.intermediate_text ≠ some decode_result then
        let (s3, evCb) := set_intermediate_text decode_result s2
        Except.ok (s3, ev1 ++ evFeed ++ evDec ++ evCopy ++ evCb)
      else
        Except.ok (s2, ev1 ++ evFeed ++ evDec ++ evCopy)

/-- The `final_decode` flag computed in `process_buff` (src lines 190-198),
as a function of the mode, the current intermediate text, the frame's eof
flag and whether the VAD detected speech in this step. -/
def final_decode_of (mode : speech_mode_t) (text : Option String)
    (eof vad_status : Bool) : Bool :=
  if eof then true
  else if mode = speech_mode_t.single_sentence ∧ has_nonempty_text text = true ∧
          vad_status = false then true
  else if mode = speech_mode_t.automatic ∧ vad_status = false then true
  else false

/-- The start-of-frame block of `process_buff` (src lines 144-151): clear
the speech buffer, reset the sentence timer and the VAD, destroy and
recreate the decoding stream. -/
def step_sof (inp : StepInput) (s : DsState) : Except String (DsState × List Event) :=
  if inp.sof then
    let s1 : DsState := { s with speech_buf := [], sentence_timer := none }
    let (s2, ev1) := free_ds_stream s1
    match create_ds_stream inp.create_ok s2 with
    | Except.error e => Except.error e
    | Except.ok (s3, ev2) => Except.ok (s3, ev1 ++ ev2)
  else Except.ok (s, [])

/-- The VAD-result block of `process_buff` (src lines 153-183): on detected
speech, set status (outside manual mode), append the VAD output to the
speech buffer and restart the sentence timer; on silence, in
single-sentence mode with an empty buffer and no non-empty intermediate
text, emit the sentence-timeout callback when the timer has expired. -/
def step_vad (timeout : Nat) (inp : StepInput) (s : DsState) : DsState × List Event :=
  if inp.vad_buf ≠ [] then
    let (s1, ev1) :=
      if s.speech_mode ≠ speech_mode_t.manual then
        set_speech_detection_status speech_detection_status_t.speech_detected s
      else (s, [])
    let s2 := { s1 with speech_buf := s1.speech_buf ++ inp.vad_buf }
    (restart_sentence_timer inp.now s2, ev1)
  else
    if s.speech_mode = speech_mode_t.single_sentence ∧ s.speech_buf = [] ∧
       has_nonempty_text s.intermediate_text = false ∧
       sentence_timer_timed_out timeout inp.now s = true then
      (s, [Event.cb_sentence_timeout])
    else (s, [])

/-- `deepspeech_wrapper::process_buff` (src lines 132-226), given a claimed
frame: the start-of-frame block, the VAD block, the concurrent-exit early
return, the `final_decode` computation, the pre-decode status capture and
decoding-status transition, the decode, the unconditional buffer clear, the
final status selection and the flush signal. -/
def process_buff (timeout : Nat) (inp : StepInput) (s0 : DsState) :
    Except String (DsState × List Event × samples_process_result_t) :=
  match step_sof inp s0 with
  | Except.error e => Except.error e
  | Except.ok (sA, evA) =>
    let (sB, evB) := step_vad timeout inp sA
    if inp.thread_exit_requested then
      Except.ok (sB, evA ++ evB, samples_process_result_t.no_samples_needed)
    else
      let fd := final_decode_of sB.speech_mode sB.intermediate_text inp.eof
        (!inp.vad_buf.isEmpty)
      let old_status := sB.speech_detection_status
      let (sC, evC) :=
        if fd = true ∧ sB.speech_mode ≠ speech_mode_t.automatic then
          set_speech_detection_status speech_detection_status_t.decoding sB
        else (sB, [])
      match decode_speech inp.create_ok inp.decode_result sC.speech_buf fd sC with
      | Except.error e => Except.error e
      | Except.ok (sD, evD) =>
        let sE := { sD with speech_buf := ([] : List Int) }
        let (sF, evF) :=
          if fd = true ∨ (sE.speech_mode = speech_mode_t.manual ∧
              sE.speech_started = false) then
            set_speech_detection_status speech_detection_status_t.no_speech sE
          else set_speech_detection_status old_status sE
        let evG :=
          if fd then
            [Event.cb_flush (if inp.eof = false ∧ sF.speech_mode = speech_mode_t.automatic
                             then flush_t.regular else flush_t.eof)]
          else []
        Except.ok (sF, evA ++ evB ++ evC ++ evD ++ evF ++ evG,
                   samples_process_result_t.wait_for_samples)

/-- Sequential composition of processing steps, accumulating the trace. -/
def run_steps (timeout : Nat) : List StepInput → DsState →
    Except String (DsState × List Event)
  | [], s => Except.ok (s, [])
  | inp :: rest, s =>
    match process_buff timeout inp s with
    | Except.error e => Except.error e
    | Except.ok (s1, ev, _) =>
      match run_steps timeout rest s1 with
      | Except.error e => Except.error e
      | Except.ok (s2, ev2) => Except.ok (s2, ev ++ ev2)

/-- Recognizer for flush callback events. -/
def is_cb_flush : Event → Bool
  | Event.cb_flush _ => true
  | _ => false

/-- Recognizer for intermediate-text callback events. -/
def is_cb_text : Event → Bool
  | Event.cb_intermediate_text _ => true
  | _ => false

/-- Recognizer for sentence-timeout callback events. -/
def is_cb_timeout : Event → Bool
  | Event.cb_sentence_timeout => true
  | _ => false

/-- Number of flush callbacks in a trace. -/
def count_flush (ev : List Event) : Nat := ev.countP is_cb_flush

/-- Number of intermediate-text callbacks in a trace. -/
def count_cb_text (ev : List Event) : Nat := ev.countP is_cb_text

/-- Number of sentence-timeout callbacks in a trace. -/
def count_timeout (ev : List Event) : Nat := ev.countP is_cb_timeout

/-- A state with neither a backend model nor a stream: fresh engine before
`start_processing_impl` ran. -/
def s_nomodel : DsState :=
  { speech_mode := speech_mode_t.manual
    speech_buf := []
    ds_model := false
    ds_stream := false
    intermediate_text := none
    speech_detection_status := speech_detection_status_t.no_speech
    speech_started := false
    sentence_timer := none }

/-- Presence of a non-empty optional string, unfolded. -/
lemma has_nonempty_text_iff (text : Option String) :
    has_nonempty_text text = true ↔ ∃ t, text = some t ∧ t ≠ "" := by
  cases text with
  | none => simp [has_nonempty_text]
  | some t =>
    simp only [has_nonempty_text, Bool.not_eq_true', Option.some.injEq]
    constructor
    · intro h
      exact ⟨t, rfl, fun hc => by rw [hc] at h; exact absurd h (by decide)⟩
    · rintro ⟨u, rfl, hu⟩
      simpa [← String.isEmpty_iff] using hu

/-- Claim C1: the `final_decode` flag computed by `process_buff` is true
exactly when the frame has eof set, or the mode is single-sentence with a
non-empty intermediate text and no speech in this step, or the mode is
automatic with no speech in this step; and false otherwise. -/
theorem claim_C1 (mode : speech_mode_t) (text : Option String) (eof vad_status : Bool) :
    final_decode_of mode text eof vad_status = true ↔
      (eof = true ∨
       (mode = speech_mode_t.single_sentence ∧ (∃ t, text = some t ∧ t ≠ "") ∧
        vad_status = false) ∨
       (mode = speech_mode_t.automatic ∧ vad_status = false)) := by
  rw [← has_nonempty_text_iff]
  unfold final_decode_of
  split_ifs with h1 h2 h3 <;> simp_all

/-- Claim C4 counterexample: with the backend model not initialized (and no
stream open), `create_ds_stream` does not fail — it returns silently with no
backend call — and a subsequent non-final `decode_speech` proceeds to feed
audio to the backend without a live session. -/
theorem claim_C4_counterexample :
    s_nomodel.ds_model = false ∧ s_nomodel.ds_stream = false ∧
    create_ds_stream true s_nomodel = Except.ok (s_nomodel, []) ∧
    decode_speech true "a" [1] false s_nomodel =
      Except.ok ({ s_nomodel with intermediate_text := some "a" },
        [Event.backend_feed false [1], Event.backend_intermediate_decode,
         Event.copy_result "a", Event.backend_free_string,
         Event.cb_intermediate_text "a"]) :=
  ⟨rfl, rfl, rfl, rfl⟩

/-- Claim C4 (amended): stream creation fails fatally exactly when it is
attempted with no stream open, the backend model initialized, and the
backend returning an error or null handle; when the model handle is not
initialized, `create_ds_stream` returns silently without error, and a
subsequent non-final decode feeds audio to the backend without a live
session. -/
theorem claim_C4_amended (create_ok : Bool) (res : String) (buf : List Int)
    (s : DsState) :
    ((∃ e, create_ds_stream create_ok s = Except.error e) ↔
      (s.ds_stream = false ∧ s.ds_model = true ∧ create_ok = false)) ∧
    (s.ds_model = false → s.ds_stream = false →
      ∃ s2 ev, decode_speech create_ok res buf false s = Except.ok (s2, ev) ∧
        Event.backend_feed false buf ∈ ev) := by
  constructor
  · unfold create_ds_stream
    cases hs : s.ds_stream <;> cases hm : s.ds_model <;> cases create_ok <;> simp
  · intro hm hs
    unfold decode_speech create_ds_stream
    rw [hm, hs]
    by_cases ht : s.intermediate_text = none ∨ s.intermediate_text ≠ some res <;>
      simp [ht, hs, set_intermediate_text] <;>
      exact ⟨_, _, ⟨rfl, rfl⟩, by simp⟩

/-- Claim C4 amended, witnessed at the model-less state. -/
theorem claim_C4_amended_witness :
    (s_nomodel.ds_model = false ∧ s_nomodel.ds_stream = false) ∧
    (((∃ e, create_ds_stream true s_nomodel = Except.error e) ↔
      (s_nomodel.ds_stream = false ∧ s_nomodel.ds_model = true ∧ True = False)) ∧
     True) := by
  constructor
  · exact ⟨rfl, rfl⟩
  · constructor
    · have h := (claim_C4_amended true "a" [1] s_nomodel).1
      simpa using h
    · trivial

/-- Claim C5: a final decode request while no decoding session is open is a
no-op — no backend operation happens, the state (in particular the
intermediate text) is unchanged, and no error is raised. -/
theorem claim_C5 (create_ok : Bool) (res : String) (buf : List Int)
    (s : DsState) (h : s.ds_stream = false) :
    decode_speech create_ok res buf true s = Except.ok (s, []) := by
  unfold decode_speech
  rw [h]
  simp

/-- Claim C5 witnessed: an engine that never created a session, with an
empty accumulated buffer, receiving a final decode request. -/
theorem claim_C5_witness :
    s_nomodel.ds_stream = false ∧
    decode_speech true "a" [] true s_nomodel = Except.ok (s_nomodel, []) :=
  ⟨rfl, claim_C5 true "a" [] s_nomodel rfl⟩

/-- Claim C9: `reset` yields an empty speech buffer, no live session and
cleared intermediate text, and it is idempotent — resetting a second time
leaves the state unchanged. -/
theorem claim_C9 (s : DsState) :
    ((reset s).1.speech_buf = [] ∧ (reset s).1.ds_stream = false ∧
     (reset s).1.intermediate_text = none) ∧
    (reset (reset s).1).1 = (reset s).1 := by
  unfold reset reset_impl free_ds_stream
  cases h : s.ds_stream <;> simp [h]

/-- Counting intermediate-text callbacks distributes over trace append. -/
lemma count_cb_text_append (l1 l2 : List Event) :
    count_cb_text (l1 ++ l2) = count_cb_text l1 + count_cb_text l2 := by
  simp [count_cb_text, List.countP_append]

/-- Counting flush callbacks distributes over trace append. -/
lemma count_flush_append (l1 l2 : List Event) :
    count_flush (l1 ++ l2) = count_flush l1 + count_flush l2 := by
  simp [count_flush, List.countP_append]

/-- Counting sentence-timeout callbacks distributes over trace append. -/
lemma count_timeout_append (l1 l2 : List Event) :
    count_timeout (l1 ++ l2) = count_timeout l1 + count_timeout l2 := by
  simp [count_timeout, List.countP_append]

/-- A successful `create_ds_stream` changes nothing but the stream flag and
emits at most the backend create call. -/
lemma create_ds_stream_ok (create_ok : Bool) (s s1 : DsState) (ev1 : List Event)
    (h : create_ds_stream create_ok s = Except.ok (s1, ev1)) :
    s1.speech_mode = s.speech_mode ∧ s1.speech_buf = s.speech_buf ∧
    s1.intermediate_text = s.intermediate_text ∧
    s1.speech_detection_status = s.speech_detection_status ∧
    s1.speech_started = s.speech_started ∧
    s1.sentence_timer = s.sentence_timer ∧
    s1.ds_model = s.ds_model ∧
    (ev1 = [] ∨ ev1 = [Event.backend_create_stream]) := by
  unfold create_ds_stream at h
  split at h
  · simp only [Except.ok.injEq, Prod.mk.injEq] at h
    obtain ⟨rfl, rfl⟩ := h
    simp
  · split at h
    · simp only [Except.ok.injEq, Prod.mk.injEq] at h
      obtain ⟨rfl, rfl⟩ := h
      simp
    · simp at h

/-- Behaviour of `decode_speech` when a stream is open: no creation, one
feed with a live handle, an intermediate or finishing decode, and the
dedup-guarded text emission. -/
lemma decode_speech_stream_eq (create_ok : Bool) (res : String) (buf : List Int)
    (eof : Bool) (s : DsState) (h : s.ds_stream = true) :
    decode_speech create_ok res buf eof s =
      (let s2 : DsState := if eof then { s with ds_stream := false } else s
       let evBase : List Event :=
         Event.backend_feed true buf ::
           ((if eof then [Event.backend_finish_stream, Event.set_stream_null]
             else [Event.backend_intermediate_decode]) ++
            [Event.copy_result res, Event.backend_free_string])
       if s.intermediate_text = some res then Except.ok (s2, evBase)
       else Except.ok ({ s2 with intermediate_text := some res },
                       evBase ++ [Event.cb_intermediate_text res])) := by
  unfold decode_speech create_ds_stream
  rw [h]
  cases eof <;> by_cases ht : s.intermediate_text = some res <;>
    simp [ht, set_intermediate_text, h]

/-- If the stored intermediate text already equals the decoded string, a
decode emits no intermediate-text callback and leaves the stored text
unchanged. -/
lemma decode_speech_dedup (create_ok : Bool) (res : String) (buf : List Int)
    (eof : Bool) (s s' : DsState) (ev : List Event)
    (htext : s.intermediate_text = some res)
    (h : decode_speech create_ok res buf eof s = Except.ok (s', ev)) :
    count_cb_text ev = 0 ∧ s'.intermediate_text = some res := by
  rcases Bool.eq_false_or_eq_true s.ds_stream with hs | hs
  · rw [decode_speech_stream_eq create_ok res buf eof s hs] at h
    rcases Bool.eq_false_or_eq_true eof with heof | heof <;>
      rw [heof] at h <;>
      simp [htext] at h <;>
      obtain ⟨rfl, rfl⟩ := h <;>
      constructor <;>
      simp [count_cb_text, is_cb_text, htext]
  · rcases Bool.eq_false_or_eq_true eof with heof | heof
    · unfold decode_speech at h
      rw [hs, heof] at h
      simp at h
      obtain ⟨rfl, rfl⟩ := h
      exact ⟨rfl, htext⟩
    · unfold decode_speech create_ds_stream at h
      rw [hs, heof] at h
      rcases Bool.eq_false_or_eq_true s.ds_model with hm | hm
      · rcases Bool.eq_false_or_eq_true create_ok with hok | hok
        · simp [hm, hok, htext, set_intermediate_text] at h
          obtain ⟨rfl, rfl⟩ := h
          constructor <;> simp [count_cb_text, is_cb_text, htext]
        · simp [hm, hok] at h
      · simp [hm, htext, set_intermediate_text] at h
        obtain ⟨rfl, rfl⟩ := h
        constructor <;> simp [count_cb_text, is_cb_text, htext]

/-- A finishing decode on an open stream, fully evaluated. -/
lemma decode_speech_stream_final (create_ok : Bool) (res : String)
    (buf : List Int) (s : DsState) (h : s.ds_stream = true) :
    decode_speech create_ok res buf true s =
      if s.intermediate_text = some res then
        Except.ok ({ s with ds_stream := false },
          [Event.backend_feed true buf, Event.backend_finish_stream,
           Event.set_stream_null, Event.copy_result res,
           Event.backend_free_string])
      else
        Except.ok ({ s with ds_stream := false, intermediate_text := some res },
          [Event.backend_feed true buf, Event.backend_finish_stream,
           Event.set_stream_null, Event.copy_result res,
           Event.backend_free_string, Event.cb_intermediate_text res]) := by
  rw [decode_speech_stream_eq create_ok res buf true s h]
  by_cases ht : s.intermediate_text = some res <;> simp [ht]

/-- An intermediate decode on an open stream, fully evaluated. -/
lemma decode_speech_stream_intermediate (create_ok : Bool) (res : String)
    (buf : List Int) (s : DsState) (h : s.ds_stream = true) :
    decode_speech create_ok res buf false s =
      if s.intermediate_text = some res then
        Except.ok (s,
          [Event.backend_feed true buf, Event.backend_intermediate_decode,
           Event.copy_result res, Event.backend_free_string])
      else
        Except.ok ({ s with intermediate_text := some res },
          [Event.backend_feed true buf, Event.backend_intermediate_decode,
           Event.copy_result res, Event.backend_free_string,
           Event.cb_intermediate_text res]) := by
  rw [decode_speech_stream_eq create_ok res buf false s h]
  by_cases ht : s.intermediate_text = some res <;> simp [ht]

/-- Claim C6: for every decode (intermediate or final), the intermediate-text
callback fires exactly once when the decoded string differs from the stored
previously-emitted value (including when none was ever emitted) and not at
all when it is identical; after the decode the stored value equals the
decoded string, so a consecutive decode yielding the same string emits no
further callback. -/
theorem claim_C6 (create_ok : Bool) (res : String) (buf : List Int) (eof : Bool)
    (s : DsState) (h : s.ds_stream = true) :
    ∃ s1 ev1, decode_speech create_ok res buf eof s = Except.ok (s1, ev1) ∧
      count_cb_text ev1 = (if s.intermediate_text = some res then 0 else 1) ∧
      s1.intermediate_text = some res ∧
      (∀ ok2 buf2 s2 ev2,
        decode_speech ok2 res buf2 false s1 = Except.ok (s2, ev2) →
        count_cb_text ev2 = 0) := by
  have key : ∀ t : DsState, t.intermediate_text = some res →
      ∀ ok2 buf2 s2 ev2, decode_speech ok2 res buf2 false t = Except.ok (s2, ev2) →
        count_cb_text ev2 = 0 := fun t h1 ok2 buf2 s2 ev2 hd =>
    (decode_speech_dedup ok2 res buf2 false t s2 ev2 h1 hd).1
  rcases Bool.eq_false_or_eq_true eof with heof | heof <;> subst heof
  · rw [decode_speech_stream_final create_ok res buf s h]
    by_cases ht : s.intermediate_text = some res
    · rw [if_pos ht]
      refine ⟨_, _, rfl, ?_, ?_, key _ ?_⟩ <;> simp [ht, count_cb_text, is_cb_text]
    · rw [if_neg ht]
      refine ⟨_, _, rfl, ?_, ?_, key _ ?_⟩ <;> simp [ht, count_cb_text, is_cb_text]
  · rw [decode_speech_stream_intermediate create_ok res buf s h]
    by_cases ht : s.intermediate_text = some res
    · rw [if_pos ht]
      refine ⟨_, _, rfl, ?_, ?_, key _ ?_⟩ <;> simp [ht, count_cb_text, is_cb_text]
    · rw [if_neg ht]
      refine ⟨_, _, rfl, ?_, ?_, key _ ?_⟩ <;> simp [ht, count_cb_text, is_cb_text]

/-- A state with a live stream and no stored intermediate text. -/
def s_live : DsState := { s_nomodel with ds_stream := true }

/-- A state with a live stream whose stored intermediate text is "a". -/
def s_live_a : DsState :=
  { s_nomodel with ds_stream := true, intermediate_text := some "a" }

/-- Claim C6 witnessed: a decode on a live stream whose result differs from
the stored text, followed by one yielding the identical string. -/
theorem claim_C6_witness :
    s_live.ds_stream = true ∧
    (∃ s1 ev1, decode_speech true "a" [] false s_live = Except.ok (s1, ev1) ∧
      count_cb_text ev1 = (if s_live.intermediate_text = some "a" then 0 else 1) ∧
      s1.intermediate_text = some "a" ∧
      (∀ ok2 buf2 s2 ev2,
        decode_speech ok2 "a" buf2 false s1 = Except.ok (s2, ev2) →
        count_cb_text ev2 = 0)) :=
  ⟨rfl, claim_C6 true "a" [] false s_live rfl⟩

/-- Claim C10: a finishing decode delivers the final transcript through the
same intermediate-text channel with the same deduplication — equal to the
last emitted value it triggers no callback, different it triggers the usual
one — and the stream handle is nulled before the result string is copied,
leaving no live session afterwards. -/
theorem claim_C10 (create_ok : Bool) (res : String) (buf : List Int)
    (s : DsState) (h : s.ds_stream = true) :
    ∃ s1 ev1, decode_speech create_ok res buf true s = Except.ok (s1, ev1) ∧
      s1.ds_stream = false ∧
      (∃ pre post, ev1 = pre ++ Event.set_stream_null ::
        Event.copy_result res :: post) ∧
      (s.intermediate_text = some res → count_cb_text ev1 = 0) ∧
      (s.intermediate_text ≠ some res →
        Event.cb_intermediate_text res ∈ ev1 ∧ count_cb_text ev1 = 1) := by
  rw [decode_speech_stream_final create_ok res buf s h]
  by_cases ht : s.intermediate_text = some res
  · rw [if_pos ht]
    refine ⟨_, _, rfl, by simp, ?_, ?_, ?_⟩
    · exact ⟨[Event.backend_feed true buf, Event.backend_finish_stream],
        [Event.backend_free_string], rfl⟩
    · intro _
      simp [count_cb_text, is_cb_text]
    · intro hc
      exact absurd ht hc
  · rw [if_neg ht]
    refine ⟨_, _, rfl, by simp, ?_, ?_, ?_⟩
    · exact ⟨[Event.backend_feed true buf, Event.backend_finish_stream],
        [Event.backend_free_string, Event.cb_intermediate_text res], rfl⟩
    · intro hc
      exact absurd hc ht
    · intro _
      exact ⟨by simp, by simp [count_cb_text, is_cb_text]⟩

/-- Claim C10 witnessed: a finishing decode on a live stream whose stored
intermediate text equals the final transcript. -/
theorem claim_C10_witness :
    s_live_a.ds_stream = true ∧
    (∃ s1 ev1, decode_speech true "a" [2] true s_live_a = Except.ok (s1, ev1) ∧
      s1.ds_stream = false ∧
      (∃ pre post, ev1 = pre ++ Event.set_stream_null ::
        Event.copy_result "a" :: post) ∧
      (s_live_a.intermediate_text = some "a" → count_cb_text ev1 = 0) ∧
      (s_live_a.intermediate_text ≠ some "a" →
        Event.cb_intermediate_text "a" ∈ ev1 ∧ count_cb_text ev1 = 1)) :=
  ⟨rfl, claim_C10 true "a" [2] s_live_a rfl⟩

/-- The speech-detection status right before the decode call in a processing
step: `speech_detected` when the VAD found speech and the mode is not
manual, the incoming status otherwise (this is `old_status` at src line
200). -/
def pre_decode_status (inp : StepInput) (s : DsState) : speech_detection_status_t :=
  if inp.vad_buf ≠ [] ∧ s.speech_mode ≠ speech_mode_t.manual then
    speech_detection_status_t.speech_detected
  else s.speech_detection_status

/-- The status setter changes only the status field and emits no flush,
text or timeout callback. -/
lemma set_speech_detection_status_spec (st : speech_detection_status_t)
    (s : DsState) :
    (set_speech_detection_status st s).1.speech_mode = s.speech_mode ∧
    (set_speech_detection_status st s).1.speech_buf = s.speech_buf ∧
    (set_speech_detection_status st s).1.intermediate_text = s.intermediate_text ∧
    (set_speech_detection_status st s).1.speech_started = s.speech_started ∧
    (set_speech_detection_status st s).1.speech_detection_status = st ∧
    count_flush (set_speech_detection_status st s).2 = 0 ∧
    count_cb_text (set_speech_detection_status st s).2 = 0 ∧
    count_timeout (set_speech_detection_status st s).2 = 0 := by
  unfold set_speech_detection_status
  split
  · rename_i he
    simp [he, count_flush, count_cb_text, count_timeout, is_cb_flush,
      is_cb_text, is_cb_timeout]
  · simp [count_flush, count_cb_text, count_timeout, is_cb_flush,
      is_cb_text, is_cb_timeout]

/-- A successful start-of-frame block preserves the mode, text, status and
speech-started fields and emits no flush, text or timeout callback. -/
lemma step_sof_ok (inp : StepInput) (s sA : DsState) (evA : List Event)
    (h : step_sof inp s = Except.ok (sA, evA)) :
    sA.speech_mode = s.speech_mode ∧
    sA.intermediate_text = s.intermediate_text ∧
    sA.speech_detection_status = s.speech_detection_status ∧
    sA.speech_started = s.speech_started ∧
    count_flush evA = 0 ∧ count_cb_text evA = 0 ∧ count_timeout evA = 0 := by
  rcases Bool.eq_false_or_eq_true inp.sof with hsof | hsof <;>
    rcases Bool.eq_false_or_eq_true s.ds_stream with hs | hs <;>
    rcases Bool.eq_false_or_eq_true s.ds_model with hm | hm <;>
    rcases Bool.eq_false_or_eq_true inp.create_ok with hok | hok <;>
    simp [step_sof, free_ds_stream, create_ds_stream, hsof, hs, hm, hok] at h <;>
    obtain ⟨rfl, rfl⟩ := h <;>
    simp [count_flush, count_cb_text, count_timeout, is_cb_flush, is_cb_text,
      is_cb_timeout]

/-- The VAD block preserves the mode, text and speech-started fields, leaves
the status at `pre_decode_status`, and emits no flush or text callback. -/
lemma step_vad_spec (timeout : Nat) (inp : StepInput) (s sB : DsState)
    (evB : List Event) (h : step_vad timeout inp s = (sB, evB)) :
    sB.speech_mode = s.speech_mode ∧
    sB.intermediate_text = s.intermediate_text ∧
    sB.speech_started = s.speech_started ∧
    sB.speech_detection_status = pre_decode_status inp s ∧
    count_flush evB = 0 ∧ count_cb_text evB = 0 := by
  unfold step_vad at h
  by_cases hv : inp.vad_buf ≠ []
  · by_cases hman : s.speech_mode ≠ speech_mode_t.manual
    · by_cases hst : s.speech_detection_status = speech_detection_status_t.speech_detected
      · simp [hv, hman, hst, set_speech_detection_status, restart_sentence_timer] at h
        obtain ⟨rfl, rfl⟩ := h
        simp [pre_decode_status, hv, hman, hst, count_flush, count_cb_text,
          is_cb_flush, is_cb_text]
      · simp [hv, hman, hst, set_speech_detection_status, restart_sentence_timer] at h
        obtain ⟨rfl, rfl⟩ := h
        simp [pre_decode_status, hv, hman, count_flush, count_cb_text,
          is_cb_flush, is_cb_text]
    · simp [hv, hman, restart_sentence_timer] at h
      obtain ⟨rfl, rfl⟩ := h
      simp [pre_decode_status, hv, hman, count_flush, count_cb_text,
        is_cb_flush, is_cb_text]
  · by_cases hg : s.speech_mode = speech_mode_t.single_sentence ∧
      s.speech_buf = [] ∧ has_nonempty_text s.intermediate_text = false ∧
      sentence_timer_timed_out timeout inp.now s = true
    · simp [hv, hg] at h
      obtain ⟨rfl, rfl⟩ := h
      simp [pre_decode_status, hv, count_flush, count_cb_text,
        is_cb_flush, is_cb_text]
    · simp [hv, hg] at h
      obtain ⟨rfl, rfl⟩ := h
      simp [pre_decode_status, hv, count_flush, count_cb_text,
        is_cb_flush, is_cb_text]

/-- A successful decode preserves the mode, buffer, status and
speech-started fields and emits no flush or timeout callback. -/
lemma decode_speech_ok_fields (create_ok : Bool) (res : String) (buf : List Int)
    (eof : Bool) (s s' : DsState) (ev : List Event)
    (h : decode_speech create_ok res buf eof s = Except.ok (s', ev)) :
    s'.speech_mode = s.speech_mode ∧ s'.speech_buf = s.speech_buf ∧
    s'.speech_detection_status = s.speech_detection_status ∧
    s'.speech_started = s.speech_started ∧
    count_flush ev = 0 ∧ count_timeout ev = 0 ∧
    s'.sentence_timer = s.sentence_timer := by
  rcases Bool.eq_false_or_eq_true s.ds_stream with hs | hs
  · rw [decode_speech_stream_eq create_ok res buf eof s hs] at h
    rcases Bool.eq_false_or_eq_true eof with heof | heof <;> rw [heof] at h <;>
      by_cases ht : s.intermediate_text = some res <;>
      simp [ht] at h <;> obtain ⟨rfl, rfl⟩ := h <;>
      simp [count_flush, count_timeout, is_cb_flush, is_cb_timeout]
  · rcases Bool.eq_false_or_eq_true eof with heof | heof
    · unfold decode_speech at h
      rw [hs, heof] at h
      simp at h
      obtain ⟨rfl, rfl⟩ := h
      simp [count_flush, count_timeout]
    · unfold decode_speech create_ds_stream at h
      rw [hs, heof] at h
      rcases Bool.eq_false_or_eq_true s.ds_model with hm | hm
      · rcases Bool.eq_false_or_eq_true create_ok with hok | hok
        · by_cases ht : s.intermediate_text = some res <;>
            simp [hm, hok, ht, set_intermediate_text] at h <;>
            obtain ⟨rfl, rfl⟩ := h <;>
            simp [count_flush, count_timeout, is_cb_flush, is_cb_timeout]
        · simp [hm, hok] at h
      · by_cases ht : s.intermediate_text = some res <;>
          simp [hm, ht, set_intermediate_text] at h <;>
          obtain ⟨rfl, rfl⟩ := h <;>
          simp [count_flush, count_timeout, is_cb_flush, is_cb_timeout]

/-- The status setter as a pair equation: the result state always carries
the new status, and the event list is the (possibly empty) status callback. -/
lemma set_sds_eq (st : speech_detection_status_t) (s : DsState) :
    set_speech_detection_status st s =
      ({ s with speech_detection_status := st },
       if s.speech_detection_status = st then [] else [Event.cb_status st]) := by
  unfold set_speech_detection_status
  split
  · rename_i he
    cases s
    simp_all
  · rfl

/-- No flush callback among status-setter events, stated for the ite form. -/
lemma count_flush_status_ite (c : Prop) [Decidable c]
    (st : speech_detection_status_t) :
    count_flush (if c then ([] : List Event) else [Event.cb_status st]) = 0 := by
  split <;> simp [count_flush, is_cb_flush]

/-- No text callback among status-setter events, stated for the ite form. -/
lemma count_cb_text_status_ite (c : Prop) [Decidable c]
    (st : speech_detection_status_t) :
    count_cb_text (if c then ([] : List Event) else [Event.cb_status st]) = 0 := by
  split <;> simp [count_cb_text, is_cb_text]

/-- No timeout callback among status-setter events, stated for the ite form. -/
lemma count_timeout_status_ite (c : Prop) [Decidable c]
    (st : speech_detection_status_t) :
    count_timeout (if c then ([] : List Event) else [Event.cb_status st]) = 0 := by
  split <;> simp [count_timeout, is_cb_timeout]

/-- A single flush event counts as one flush. -/
lemma count_flush_single (k : flush_t) : count_flush [Event.cb_flush k] = 1 := by
  simp [count_flush, is_cb_flush]

/-- The empty trace has no flush. -/
lemma count_flush_nil : count_flush [] = 0 := rfl

/-- The empty trace has no timeout callback. -/
lemma count_timeout_nil : count_timeout [] = 0 := rfl

/-- A single flush event is no timeout callback. -/
lemma count_timeout_flush (k : flush_t) : count_timeout [Event.cb_flush k] = 0 := by
  simp [count_timeout, is_cb_timeout]

/-- A status callback followed by a flush counts as one flush. -/
lemma count_flush_status_flush (st : speech_detection_status_t) (k : flush_t) :
    count_flush [Event.cb_status st, Event.cb_flush k] = 1 := by
  simp [count_flush, is_cb_flush]

/-- Characterization of a completed (non-exit) processing step: the speech
buffer ends empty, mode and speech-started are preserved, the final status
follows the final-decode/manual rule, and exactly one flush of the
documented kind is emitted when and only when `final_decode` holds. -/
lemma process_buff_ok_wait (timeout : Nat) (inp : StepInput) (s0 s' : DsState)
    (ev : List Event)
    (h : process_buff timeout inp s0 =
      Except.ok (s', ev, samples_process_result_t.wait_for_samples)) :
    s'.speech_buf = [] ∧
    s'.speech_mode = s0.speech_mode ∧
    s'.speech_started = s0.speech_started ∧
    s'.speech_detection_status =
      (if final_decode_of s0.speech_mode s0.intermediate_text inp.eof
            (!inp.vad_buf.isEmpty) = true ∨
          (s0.speech_mode = speech_mode_t.manual ∧ s0.speech_started = false)
       then speech_detection_status_t.no_speech
       else pre_decode_status inp s0) ∧
    count_flush ev =
      (if final_decode_of s0.speech_mode s0.intermediate_text inp.eof
            (!inp.vad_buf.isEmpty) = true then 1 else 0) ∧
    (final_decode_of s0.speech_mode s0.intermediate_text inp.eof
        (!inp.vad_buf.isEmpty) = true →
      Event.cb_flush (if inp.eof = false ∧ s0.speech_mode = speech_mode_t.automatic
                      then flush_t.regular else flush_t.eof) ∈ ev) := by
  simp only [process_buff] at h
  split at h
  · exact absurd h (by simp)
  · rename_i p sA evA heqA
    obtain ⟨hAmode, hAtext, hAst, hAstart, hAf, hAt, hAto⟩ :=
      step_sof_ok inp s0 sA evA heqA
    obtain ⟨hBmode, hBtext, hBstart, hBst, hBf, hBt⟩ :=
      step_vad_spec timeout inp sA (step_vad timeout inp sA).1
        (step_vad timeout inp sA).2 Prod.mk.eta.symm
    rw [hAmode] at hBmode
    rw [hAtext] at hBtext
    rw [hAstart] at hBstart
    have hpre : pre_decode_status inp sA = pre_decode_status inp s0 := by
      unfold pre_decode_status
      rw [hAmode, hAst]
    rw [hpre] at hBst
    split at h
    · exact absurd h (by simp)
    · rename_i hexit
      simp only [hBmode, hBtext, set_sds_eq] at h
      by_cases hfd : final_decode_of s0.speech_mode s0.intermediate_text inp.eof
          (!inp.vad_buf.isEmpty) = true
      · by_cases hauto : s0.speech_mode = speech_mode_t.automatic
        · rw [if_neg (by simp [hauto])] at h
          simp only [hfd] at h
          split at h
          · exact absurd h (by simp)
          · rename_i sD evD heqD
            obtain ⟨hDmode, hDbuf, hDst, hDstart, hDf, hDto, hDtimer⟩ :=
              decode_speech_ok_fields _ _ _ _ _ _ _ heqD
            simp only [hDmode, hDstart, hDst, hBmode, hBstart, hBst] at h
            simp [hauto] at h
            obtain ⟨rfl, rfl⟩ := h
            refine ⟨rfl, by simp [hauto], rfl, by simp [hfd], ?_, ?_⟩
            · simp [count_flush_append, hAf, hBf, hDf, count_flush_status_ite,
                count_flush_single, count_flush_nil, hfd]
            · intro _
              simp [hauto]
        · have hcond : (final_decode_of s0.speech_mode s0.intermediate_text inp.eof
              (!inp.vad_buf.isEmpty)) = true ∧
              s0.speech_mode ≠ speech_mode_t.automatic := ⟨hfd, hauto⟩
          rw [if_pos hcond] at h
          simp only [hfd] at h
          split at h
          · exact absurd h (by simp)
          · rename_i sD evD heqD
            obtain ⟨hDmode, hDbuf, hDst, hDstart, hDf, hDto, hDtimer⟩ :=
              decode_speech_ok_fields _ _ _ _ _ _ _ heqD
            simp at hDmode hDst hDstart
            rw [hBstart] at hDstart
            simp only [hDmode, hDstart, hDst] at h
            simp [hauto] at h
            obtain ⟨rfl, rfl⟩ := h
            refine ⟨rfl, rfl, rfl, by simp [hfd], ?_, ?_⟩
            · simp [count_flush_append, hAf, hBf, hDf, count_flush_status_ite,
                count_flush_single, count_flush_nil, count_flush_status_flush, hfd]
            · intro _
              simp [hauto]
      · rw [if_neg (by simp [hfd])] at h
        split at h
        · exact absurd h (by simp)
        · rename_i sD evD heqD
          obtain ⟨hDmode, hDbuf, hDst, hDstart, hDf, hDto, hDtimer⟩ :=
            decode_speech_ok_fields _ _ _ _ _ _ _ heqD
          simp only [hDmode, hDstart, hDst, hBmode, hBstart, hBst] at h
          by_cases hman : s0.speech_mode = speech_mode_t.manual ∧
            s0.speech_started = false
          · have hfdm : ¬(final_decode_of speech_mode_t.manual s0.intermediate_text
                inp.eof (!inp.vad_buf.isEmpty)) = true := by
              rw [← hman.1]
              exact hfd
            simp [hfd, hman] at h
            obtain ⟨rfl, rfl⟩ := h
            refine ⟨rfl, by simp [hman.1], by simp [hman.2], by simp [hfd, hman], ?_, ?_⟩
            · simp [count_flush_append, hAf, hBf, hDf, count_flush_status_ite,
                count_flush_nil, count_flush_status_flush, hfd, hfdm]
            · intro hcon
              exact absurd hcon hfd
          · simp [hfd, hman] at h
            obtain ⟨rfl, rfl⟩ := h
            refine ⟨rfl, rfl, rfl, by simp [hfd, hman], ?_, ?_⟩
            · simp [count_flush_append, hAf, hBf, hDf, count_flush_status_ite,
                count_flush_nil, hfd]
            · intro hcon
              exact absurd hcon hfd

/-- Claim C2: a completed processing step emits exactly one flush callback
when `final_decode` holds — of kind regular exactly when the frame's eof is
false and the mode is automatic, of kind eof otherwise — and no flush at
all when `final_decode` is false. -/
theorem claim_C2 (timeout : Nat) (inp : StepInput) (s0 s' : DsState)
    (ev : List Event)
    (h : process_buff timeout inp s0 =
      Except.ok (s', ev, samples_process_result_t.wait_for_samples)) :
    (final_decode_of s0.speech_mode s0.intermediate_text inp.eof
        (!inp.vad_buf.isEmpty) = true →
      count_flush ev = 1 ∧
      Event.cb_flush (if inp.eof = false ∧ s0.speech_mode = speech_mode_t.automatic
                      then flush_t.regular else flush_t.eof) ∈ ev) ∧
    (final_decode_of s0.speech_mode s0.intermediate_text inp.eof
        (!inp.vad_buf.isEmpty) = false →
      count_flush ev = 0) := by
  obtain ⟨-, -, -, -, hc, hm⟩ := process_buff_ok_wait timeout inp s0 s' ev h
  constructor
  · intro hfd
    exact ⟨by rw [hc, if_pos hfd], hm hfd⟩
  · intro hfd
    rw [hc, if_neg (by simp [hfd])]

/-- Concrete step input: an eof frame with silence, no exit request. -/
def inpW : StepInput :=
  { sof := false, eof := true, vad_buf := [], thread_exit_requested := false,
    now := 0, create_ok := true, decode_result := "a" }

/-- Trace of the witness step: decoding status, final status, eof flush. -/
def evW : List Event :=
  [Event.cb_status speech_detection_status_t.decoding,
   Event.cb_status speech_detection_status_t.no_speech,
   Event.cb_flush flush_t.eof]

/-- Claim C2 witnessed: an eof frame in manual mode with no session yields
one eof flush. -/
theorem claim_C2_witness :
    process_buff 0 inpW s_nomodel =
      Except.ok (s_nomodel, evW, samples_process_result_t.wait_for_samples) ∧
    count_flush evW = 1 ∧ Event.cb_flush flush_t.eof ∈ evW := by
  have h : process_buff 0 inpW s_nomodel =
      Except.ok (s_nomodel, evW, samples_process_result_t.wait_for_samples) := rfl
  have hk := (claim_C2 0 inpW s_nomodel s_nomodel evW h).1 (by decide)
  refine ⟨h, hk.1, ?_⟩
  simpa using hk.2

/-- Claim C7: at the end of a completed processing step the status is
`no_speech` when `final_decode` held or the mode is manual with speech never
started; otherwise it is the value captured before the decode (the incoming
status, or `speech_detected` if this step's VAD found speech outside manual
mode), so an intermediate decode leaves the observable status unchanged. -/
theorem claim_C7 (timeout : Nat) (inp : StepInput) (s0 s' : DsState)
    (ev : List Event)
    (h : process_buff timeout inp s0 =
      Except.ok (s', ev, samples_process_result_t.wait_for_samples)) :
    s'.speech_detection_status =
      (if final_decode_of s0.speech_mode s0.intermediate_text inp.eof
            (!inp.vad_buf.isEmpty) = true ∨
          (s0.speech_mode = speech_mode_t.manual ∧ s0.speech_started = false)
       then speech_detection_status_t.no_speech
       else pre_decode_status inp s0) :=
  (process_buff_ok_wait timeout inp s0 s' ev h).2.2.2.1

/-- Claim C7 witnessed on the eof frame: final status is `no_speech`. -/
theorem claim_C7_witness :
    process_buff 0 inpW s_nomodel =
      Except.ok (s_nomodel, evW, samples_process_result_t.wait_for_samples) ∧
    s_nomodel.speech_detection_status =
      (if final_decode_of s_nomodel.speech_mode s_nomodel.intermediate_text
            inpW.eof (!inpW.vad_buf.isEmpty) = true ∨
          (s_nomodel.speech_mode = speech_mode_t.manual ∧
           s_nomodel.speech_started = false)
       then speech_detection_status_t.no_speech
       else pre_decode_status inpW s_nomodel) :=
  ⟨rfl, claim_C7 0 inpW s_nomodel s_nomodel evW rfl⟩

/-- Claim C8: after the decode step inside a completed `process_buff`, the
utterance buffer is empty regardless of the decode's kind or outcome, so
decoded samples are never resent; consequently a non-empty buffer at the end
of a step would imply a speech-detected or decoding status (vacuously, as
the buffer is always empty there). -/
theorem claim_C8 (timeout : Nat) (inp : StepInput) (s0 s' : DsState)
    (ev : List Event)
    (h : process_buff timeout inp s0 =
      Except.ok (s', ev, samples_process_result_t.wait_for_samples)) :
    s'.speech_buf = [] ∧
    (s'.speech_buf ≠ [] →
      s'.speech_detection_status = speech_detection_status_t.speech_detected ∨
      s'.speech_detection_status = speech_detection_status_t.decoding) := by
  obtain ⟨hb, -⟩ := process_buff_ok_wait timeout inp s0 s' ev h
  exact ⟨hb, fun hc => absurd hb hc⟩

/-- Claim C8 witnessed on the eof frame: the buffer ends empty. -/
theorem claim_C8_witness :
    process_buff 0 inpW s_nomodel =
      Except.ok (s_nomodel, evW, samples_process_result_t.wait_for_samples) ∧
    s_nomodel.speech_buf = [] :=
  ⟨rfl, (claim_C8 0 inpW s_nomodel s_nomodel evW rfl).1⟩

/-- With a cooperating backend, `decode_speech` always succeeds. -/
lemma decode_speech_total (res : String) (buf : List Int) (eof : Bool)
    (s : DsState) :
    ∃ s' ev, decode_speech true res buf eof s = Except.ok (s', ev) := by
  rcases Bool.eq_false_or_eq_true s.ds_stream with hs | hs
  · rcases Bool.eq_false_or_eq_true eof with heof | heof <;> subst heof
    · rw [decode_speech_stream_final true res buf s hs]
      by_cases ht : s.intermediate_text = some res
      · rw [if_pos ht]
        exact ⟨_, _, rfl⟩
      · rw [if_neg ht]
        exact ⟨_, _, rfl⟩
    · rw [decode_speech_stream_intermediate true res buf s hs]
      by_cases ht : s.intermediate_text = some res
      · rw [if_pos ht]
        exact ⟨_, _, rfl⟩
      · rw [if_neg ht]
        exact ⟨_, _, rfl⟩
  · rcases Bool.eq_false_or_eq_true eof with heof | heof
    · refine ⟨s, [], ?_⟩
      unfold decode_speech
      rw [hs, heof]
      simp
    · unfold decode_speech create_ds_stream
      rw [hs, heof]
      rcases Bool.eq_false_or_eq_true s.ds_model with hm | hm <;>
        by_cases ht : s.intermediate_text = some res <;>
        simp [hm, ht, set_intermediate_text]

/-- After a non-final decode the stored intermediate text equals the
decoded string. -/
lemma decode_speech_text_after (create_ok : Bool) (res : String)
    (buf : List Int) (s s' : DsState) (ev : List Event)
    (h : decode_speech create_ok res buf false s = Except.ok (s', ev)) :
    s'.intermediate_text = some res := by
  rcases Bool.eq_false_or_eq_true s.ds_stream with hs | hs
  · rw [decode_speech_stream_intermediate create_ok res buf s hs] at h
    by_cases ht : s.intermediate_text = some res <;> simp [ht] at h <;>
      obtain ⟨rfl, rfl⟩ := h <;> simp [ht]
  · unfold decode_speech create_ds_stream at h
    rw [hs] at h
    rcases Bool.eq_false_or_eq_true s.ds_model with hm | hm
    · rcases Bool.eq_false_or_eq_true create_ok with hok | hok
      · by_cases ht : s.intermediate_text = some res <;>
          simp [hm, hok, ht, set_intermediate_text] at h <;>
          obtain ⟨rfl, rfl⟩ := h <;> simp [ht]
      · simp [hm, hok] at h
    · by_cases ht : s.intermediate_text = some res <;>
        simp [hm, ht, set_intermediate_text] at h <;>
        obtain ⟨rfl, rfl⟩ := h <;> simp [ht]

/-- An idle step input: no frame markers, no speech in the VAD output, no
exit request, a cooperative backend and an empty decode result. -/
def idle_input (inp : StepInput) : Prop :=
  inp.sof = false ∧ inp.eof = false ∧ inp.vad_buf = [] ∧
  inp.thread_exit_requested = false ∧ inp.create_ok = true ∧
  inp.decode_result = ""

/-- An idle step with an armed, expired sentence timer completes, fires
exactly one sentence-timeout callback within that step, and leaves the
engine idle with the timer still armed at the same tick: the read-only
timed-out query never disarms it, and only detected speech or a
start-of-frame would. -/
lemma idle_step_armed (timeout : Nat) (inp : StepInput) (s : DsState) (t : Nat)
    (hi : idle_input inp)
    (hmode : s.speech_mode = speech_mode_t.single_sentence)
    (hbuf : s.speech_buf = [])
    (htext : has_nonempty_text s.intermediate_text = false)
    (htimer : s.sentence_timer = some t)
    (hexp : timeout < inp.now - t) :
    ∃ s' ev, process_buff timeout inp s =
      Except.ok (s', ev, samples_process_result_t.wait_for_samples) ∧
      count_timeout ev = 1 ∧
      s'.speech_mode = speech_mode_t.single_sentence ∧ s'.speech_buf = [] ∧
      has_nonempty_text s'.intermediate_text = false ∧
      s'.sentence_timer = some t := by
  obtain ⟨hsof, heof, hvad, hexit, hok, hres⟩ := hi
  have hA : step_sof inp s = Except.ok (s, []) := by
    simp [step_sof, hsof]
  have hB : step_vad timeout inp s = (s, [Event.cb_sentence_timeout]) := by
    simp [step_vad, hvad, hmode, hbuf, htext, sentence_timer_timed_out,
      htimer, hexp]
  have hfd : final_decode_of speech_mode_t.single_sentence s.intermediate_text
      inp.eof (!inp.vad_buf.isEmpty) = false := by
    simp [final_decode_of, heof, htext]
  obtain ⟨sD, evD, hD⟩ := decode_speech_total inp.decode_result s.speech_buf false s
  obtain ⟨hDmode, hDbuf, hDst, hDstart, hDf, hDto, hDtimer⟩ :=
    decode_speech_ok_fields _ _ _ _ _ _ _ hD
  have hDtext := decode_speech_text_after _ _ _ _ _ _ hD
  refine ⟨{ sD with speech_buf := [], speech_detection_status := s.speech_detection_status }, Event.cb_sentence_timeout :: evD, ?_, ?_, ?_, rfl, ?_, ?_⟩
  · simp [process_buff, hA, hB, hexit, hfd, hok, hD, hDst, hDmode, hDstart,
      hmode, set_sds_eq]
  · rw [show Event.cb_sentence_timeout :: evD =
        [Event.cb_sentence_timeout] ++ evD from rfl,
      count_timeout_append, hDto]
    decide
  · simp [hDmode, hmode]
  · simp [hDtext, hres, has_nonempty_text]
    decide
  · simp [hDtimer, htimer]

/-- Claim C3 (amended): in single-sentence mode, over a run of consecutive
idle steps (no speech, empty utterance buffer, no non-empty intermediate
text) whose armed sentence timer is past its deadline at every step, the
sentence-timeout callback fires once per step — the driver re-checks the
read-only timed-out query every step and nothing disarms the timer during
silence — so it fires as many times as the run has steps, not once per idle
period. -/
theorem claim_C3 (timeout : Nat) (inps : List StepInput) (s : DsState) (t : Nat)
    (hmode : s.speech_mode = speech_mode_t.single_sentence)
    (hbuf : s.speech_buf = [])
    (htext : has_nonempty_text s.intermediate_text = false)
    (htimer : s.sentence_timer = some t)
    (hidle : ∀ i ∈ inps, idle_input i ∧ timeout < i.now - t) :
    ∃ s' ev, run_steps timeout inps s = Except.ok (s', ev) ∧
      count_timeout ev = inps.length := by
  induction inps generalizing s with
  | nil => exact ⟨s, [], rfl, rfl⟩
  | cons inp rest ih =>
    obtain ⟨hii, hexp⟩ := hidle inp (by simp)
    obtain ⟨s1, ev1, h1, hc1, hm1, hb1, ht1, htm1⟩ :=
      idle_step_armed timeout inp s t hii hmode hbuf htext htimer hexp
    obtain ⟨s2, ev2, h2, hc2⟩ :=
      ih s1 hm1 hb1 ht1 htm1 (fun i hm => hidle i (by simp [hm]))
    refine ⟨s2, ev1 ++ ev2, ?_, ?_⟩
    · simp [run_steps, h1, h2]
    · simp [count_timeout_append, hc1, hc2]
      omega

/-- An idle single-sentence engine whose sentence timer was armed at tick 0. -/
def s_idle : DsState :=
  { speech_mode := speech_mode_t.single_sentence
    speech_buf := []
    ds_model := false
    ds_stream := false
    intermediate_text := none
    speech_detection_status := speech_detection_status_t.no_speech
    speech_started := false
    sentence_timer := some 0 }

/-- First idle frame of the concrete run, at tick 1. -/
def inp_idle1 : StepInput :=
  { sof := false, eof := false, vad_buf := [], thread_exit_requested := false,
    now := 1, create_ok := true, decode_result := "" }

/-- Second idle frame of the concrete run, at tick 2. -/
def inp_idle2 : StepInput :=
  { sof := false, eof := false, vad_buf := [], thread_exit_requested := false,
    now := 2, create_ok := true, decode_result := "" }

/-- The engine state after the first idle step: only the intermediate text
has been set (to the empty decode result); the timer is still armed. -/
def s_mid : DsState := { s_idle with intermediate_text := some "" }

/-- The full trace of the concrete two-step idle run. -/
def ev_idle2 : List Event :=
  [Event.cb_sentence_timeout, Event.backend_feed false [],
   Event.backend_intermediate_decode, Event.copy_result "",
   Event.backend_free_string, Event.cb_intermediate_text "",
   Event.cb_sentence_timeout, Event.backend_feed false [],
   Event.backend_intermediate_decode, Event.copy_result "",
   Event.backend_free_string]

/-- Claim C3 counterexample: a two-step idle run in single-sentence mode —
no speech, the utterance buffer empty and no non-empty intermediate text
throughout, the armed sentence timer expired at both steps — fires the
sentence-timeout callback twice, not exactly once for the idle period. -/
theorem claim_C3_counterexample :
    s_idle.speech_mode = speech_mode_t.single_sentence ∧
    s_idle.speech_buf = [] ∧
    has_nonempty_text s_idle.intermediate_text = false ∧
    s_idle.sentence_timer = some 0 ∧ 0 < inp_idle1.now - 0 ∧
    run_steps 0 [inp_idle1, inp_idle2] s_idle = Except.ok (s_mid, ev_idle2) ∧
    s_mid.speech_buf = [] ∧
    has_nonempty_text s_mid.intermediate_text = false ∧
    s_mid.sentence_timer = some 0 ∧ 0 < inp_idle2.now - 0 ∧
    count_timeout ev_idle2 = 2 ∧ count_timeout ev_idle2 ≠ 1 :=
  ⟨rfl, rfl, rfl, rfl, by decide, rfl, rfl, by decide, rfl, by decide,
   by decide, by decide⟩

/-- Claim C3 (amended) witnessed on the concrete two-step idle run: the
callback count equals the number of steps. -/
theorem claim_C3_witness :
    (s_idle.speech_mode = speech_mode_t.single_sentence ∧
     s_idle.speech_buf = [] ∧
     has_nonempty_text s_idle.intermediate_text = false ∧
     s_idle.sentence_timer = some 0 ∧
     (∀ i ∈ [inp_idle1, inp_idle2], idle_input i ∧ 0 < i.now - 0)) ∧
    (∃ s' ev, run_steps 0 [inp_idle1, inp_idle2] s_idle = Except.ok (s', ev) ∧
      count_timeout ev = ([inp_idle1, inp_idle2] : List StepInput).length) := by
  constructor
  · refine ⟨rfl, rfl, rfl, rfl, ?_⟩
    intro i hi
    simp at hi
    rcases hi with rfl | rfl <;>
      exact ⟨⟨rfl, rfl, rfl, rfl, rfl, rfl⟩, by decide⟩
  · exact claim_C3 0 [inp_idle1, inp_idle2] s_idle 0 rfl rfl rfl rfl
      (by
        intro i hi
        simp at hi
        rcases hi with rfl | rfl <;>
          exact ⟨⟨rfl, rfl, rfl, rfl, rfl, rfl⟩, by decide⟩)
